import Mathlib

/-!
Shallow embedding of the Eventual API (FastAPI + SQLAlchemy CRUD service for
users and tasks, plus an in-process self-test harness).

Modelling conventions:
* UUID primary keys (`uuid.uuid4`) are modelled as `Nat`; the id generated for
  a freshly inserted row is passed to the operation as an explicit argument.
* `datetime` values (the `due_date` column) are modelled as `Int` timestamps.
* A database state is the ordered contents of the two tables, `users` and
  `tasks` (insertion order; `query(...).first()` is the first matching row).
* The constraints declared on the SQLAlchemy models (`app/models/classes.py`):
  primary-key uniqueness, UNIQUE on `users.email`, `users.phone_number`,
  `tasks.idm_key`, and the NOT NULL foreign key `tasks.user_id REFERENCES
  users.id`, are enforced by the database at commit time.  A mutation is
  therefore modelled as: build the written state, and if it satisfies the
  declared constraints the commit succeeds, otherwise the commit raises an
  integrity error and the transaction is rolled back (the state is unchanged).
* A route handler returns a pair: the response (`Except AppError α`, where an
  `AppError` is an `HTTPException` or an uncaught Python exception, which
  FastAPI surfaces as a 500) together with the database state after the call.
-/

namespace Eventual

/-- Row of the `users` table (app/models/classes.py, class User):
id, name, email, optional phone_number. -/
structure UserRow where
  id : Nat
  name : String
  email : String
  phone_number : Option String
deriving DecidableEq

/-- Row of the `tasks` table (app/models/classes.py, class Task):
id, title, owning user_id, integer status, optional due_date, optional
idm_key. -/
structure TaskRow where
  id : Nat
  title : String
  user_id : Nat
  status : Int
  due_date : Option Int
  idm_key : Option String
deriving DecidableEq

/-- A database state: the contents of the two tables. -/
structure Store where
  users : List UserRow
  tasks : List TaskRow
deriving DecidableEq

/-- Errors surfaced by a route call.  `http` is a FastAPI `HTTPException`
with status code and detail; the other constructors are uncaught Python
exceptions (FastAPI turns them into a 500 response). -/
inductive AppError where
  | http (code : Nat) (detail : String)
  | attributeError (msg : String)
  | integrityError
  | typeError (msg : String)
deriving DecidableEq

/-- Uniqueness constraints declared on the `users` table
(app/models/classes.py): primary key `id`, UNIQUE `email`, UNIQUE
`phone_number` (NULLs are allowed to repeat). -/
def usersOk (us : List UserRow) : Bool :=
  decide (us.map (fun u => u.id)).Nodup &&
  decide (us.map (fun u => u.email)).Nodup &&
  decide (us.filterMap (fun u => u.phone_number)).Nodup

/-- Constraints declared on the `tasks` table (app/models/classes.py):
primary key `id`, UNIQUE `idm_key` (NULLs allowed to repeat), and the NOT
NULL foreign key `user_id REFERENCES users.id`. -/
def tasksOk (us : List UserRow) (ts : List TaskRow) : Bool :=
  decide (ts.map (fun t => t.id)).Nodup &&
  decide (ts.filterMap (fun t => t.idm_key)).Nodup &&
  ts.all (fun t => us.any (fun u => u.id == t.user_id))

/-- All constraints declared on the schema hold.  The database enforces this
at every commit, so every reachable database state satisfies `storeOk`. -/
def storeOk (s : Store) : Bool :=
  usersOk s.users && tasksOk s.users s.tasks

/-- Replace the first element satisfying `p` by `v` (the SQLAlchemy pattern
of mutating the single object returned by `query(...).first()`). -/
def setFirst (p : α → Bool) (v : α) : List α → List α
  | [] => []
  | x :: xs => if p x then v :: xs else x :: setFirst p v xs

/-! ### Request schemas (app/schemas) -/

/-- Pydantic schema `UserCreate` (app/schemas/user.py): name, email,
optional phone_number. -/
structure UserCreate where
  name : String
  email : String
  phone_number : Option String
deriving DecidableEq

/-- Pydantic schema `TaskCreate` (app/schemas/task.py): `TaskBase` declares
title, status (default 0) and optional due_date, and `TaskCreate` adds
user_id.  Note that `idm_key` is NOT a field of this schema. -/
structure TaskCreate where
  title : String
  status : Int
  due_date : Option Int
  user_id : Nat
deriving DecidableEq

/-- The declared field names of the pydantic model `TaskCreate`
(app/schemas/task.py).  Pydantic raises `AttributeError` when an attribute
that is not a declared field is read from a model instance. -/
def taskCreateFields : List String :=
  ["title", "status", "due_date", "user_id"]

/-- Pydantic schema `TaskUpdate` (app/schemas/task.py): every field optional.
`none` models a field that was not supplied in the request body, so that
`model_dump(exclude_unset=True)` omits it; `some v` models a field supplied
with value `v`.  (Explicitly supplying a JSON `null` is not modelled.) -/
structure TaskUpdate where
  title : Option String := none
  status : Option Int := none
  due_date : Option (Option Int) := none
deriving DecidableEq

/-! ### Route handlers (app/routers) -/

/-- The row inserted by `create_user` (`User(**user.model_dump())` with the
generated primary key). -/
def mkUser (freshId : Nat) (req : UserCreate) : UserRow :=
  { id := freshId, name := req.name, email := req.email,
    phone_number := req.phone_number }

/-- POST /users/ (app/routers/users.py, create_user): if a user with the
requested email exists, raise HTTP 400 "Email already registered";
otherwise insert the new row and commit. -/
def create_user (freshId : Nat) (req : UserCreate) (s : Store) :
    Except AppError UserRow × Store :=
  match s.users.find? (fun u => u.email == req.email) with
  | some _ => (.error (.http 400 "Email already registered"), s)
  | none =>
    let u := mkUser freshId req
    let s1 : Store := { s with users := s.users ++ [u] }
    if storeOk s1 then (.ok u, s1) else (.error .integrityError, s)

/-- The row inserted by `create_task` (`Task(**task.model_dump())` with the
generated primary key; `idm_key` is not in the dump, so the column takes its
default NULL). -/
def mkTask (freshId : Nat) (req : TaskCreate) : TaskRow :=
  { id := freshId, title := req.title, user_id := req.user_id,
    status := req.status, due_date := req.due_date, idm_key := none }

/-- POST /tasks/ (app/routers/tasks.py, create_task): first check the owner
exists (HTTP 404 otherwise); then the source evaluates `task.idm_key`, an
attribute read on the pydantic `TaskCreate` instance.  Since `idm_key` is not
among `taskCreateFields`, pydantic raises `AttributeError` there; the branch
that would implement the idempotent create (returning the task that already
holds the key) and the insert are unreachable, and are modelled only for the
field-present case. -/
def create_task (freshId : Nat) (req : TaskCreate) (s : Store) :
    Except AppError TaskRow × Store :=
  match s.users.find? (fun u => u.id == req.user_id) with
  | none => (.error (.http 404 "User not found"), s)
  | some _ =>
    if taskCreateFields.contains "idm_key" then
      -- intended logic of lines 21-32 (dead code: the attribute read fails)
      let row := mkTask freshId req
      let s1 : Store := { s with tasks := s.tasks ++ [row] }
      if storeOk s1 then (.ok row, s1) else (.error .integrityError, s)
    else
      (.error (.attributeError "idm_key"), s)

/-- GET /tasks/summary/status (app/routers/tasks.py, task_summary_by_status):
for each status in [0, 1, 2], count the tasks having that status, and return
the mapping in that order. -/
def task_summary_by_status (s : Store) : List (Int × Nat) :=
  [(0 : Int), 1, 2].map
    (fun st => (st, (s.tasks.filter (fun t => t.status == st)).length))

/-- PUT /tasks/{task_id} (app/routers/tasks.py, update_task): look up the
task (HTTP 404 if absent), set each supplied field on the fetched object
(`model_dump(exclude_unset=True)` then `setattr`), and commit. -/
def update_task (tid : Nat) (upd : TaskUpdate) (s : Store) :
    Except AppError TaskRow × Store :=
  match s.tasks.find? (fun t => t.id == tid) with
  | none => (.error (.http 404 "Task not found"), s)
  | some t =>
    let t1 : TaskRow :=
      { t with
        title := upd.title.getD t.title,
        status := upd.status.getD t.status,
        due_date := upd.due_date.getD t.due_date }
    let s1 : Store := { s with tasks := setFirst (fun x => x.id == tid) t1 s.tasks }
    if storeOk s1 then (.ok t1, s1) else (.error .integrityError, s)

/-- DELETE /users/{user_id} (app/routers/users.py, delete_user): look up the
user (HTTP 404 if absent), delete the fetched row, and commit.  The commit
enforces the declared constraints; in particular the NOT NULL foreign key
from `tasks.user_id` blocks deleting a user that still owns tasks. -/
def delete_user (uid : Nat) (s : Store) : Except AppError Unit × Store :=
  match s.users.find? (fun u => u.id == uid) with
  | none => (.error (.http 404 "User not found"), s)
  | some _ =>
    let s1 : Store := { s with users := s.users.eraseP (fun u => u.id == uid) }
    if storeOk s1 then (.ok (), s1) else (.error .integrityError, s)

/-! ### Self-test harness (app/tests.py, BaseTest.run; app/main.py, run_tests)

A check (`BaseTest` subclass) has an execute step, which mutates the shared
context / database state and either produces the check's own result
(`self.result`) or raises an exception with a message, and a validation step
reading the shared state and the result.  `σ` is the type of the shared
mutable state threaded through the run (the `db` session plus the `context`
dict); `ρ` is the type of the check's own result.  The validation bodies in
app/tests.py are plain comparisons that cannot raise, so `validate` is total.
-/

/-- Outcome of one check, as recorded in its result dict: the `status` field
together with the `error` message when the execute step raised. -/
inductive CheckStatus where
  | pass
  | fail
  | errored (msg : String)
deriving DecidableEq

/-- One check of the self-test suite. -/
structure Check (σ ρ : Type) where
  name : String
  execute : σ → σ × Except String ρ
  validate : σ → ρ → Bool

/-- BaseTest.run (app/tests.py lines 20-35): run the execute step inside
`try`; if it raises, record ERROR with `str(e)`; otherwise record PASS or
FAIL according to the validation step. -/
def runCheck (c : Check σ ρ) (s : σ) : (String × CheckStatus) × σ :=
  match c.execute s with
  | (s1, .error m) => ((c.name, .errored m), s1)
  | (s1, .ok r) =>
    ((c.name, if c.validate s1 r then .pass else .fail), s1)

/-- The driver loop of run_tests (app/main.py): run each check in order,
threading the shared state, and append every result to the report. -/
def runAllChecks : List (Check σ ρ) → σ → List (String × CheckStatus) × σ
  | [], s => ([], s)
  | c :: cs, s =>
    let (r, s1) := runCheck c s
    let (rs, s2) := runAllChecks cs s1
    (r :: rs, s2)

/-! ### Name resolution and constructor signatures of the suite

GET /test is backed by `run_tests` in app/main.py.  That module imports
twelve test-class names from app.tests, and then constructs the success and
error suites by calling the class constructors with keyword arguments.
Python raises `ImportError` when an imported name is not defined in the
module, and `TypeError` when a call passes a keyword argument that is not a
parameter of the callee.  Both name tables below are transcribed from the
source. -/

/-- Class names defined in app/tests.py. -/
def testsModuleClasses : List String :=
  ["BaseTest", "UserCreateTest", "UserReadTest", "UserUpdateTest",
   "UserDeleteTest", "UserListTest", "TaskCreateTest", "TaskReadTest",
   "TaskUpdateTest", "TaskDeleteTest", "TaskListTest", "TaskSummaryTest"]

/-- Names imported from app.tests by app/main.py (lines 7-11). -/
def mainTestImports : List String :=
  ["UserCreateTest", "UserReadTest", "UserUpdateTest", "UserDeleteTest",
   "UserListTest", "TaskCreateTest", "TaskReadTest", "TaskUpdateTest",
   "TaskDeleteTest", "TaskListTest", "TaskSummaryTest",
   "TaskFilterByUserTest"]

/-- A Python call with keyword arguments is accepted only when every keyword
names a parameter of the callee (otherwise: `TypeError: __init__() got an
unexpected keyword argument ...`).  Missing required arguments also raise
`TypeError`, but no call site in app/main.py omits a required argument, so
only the unexpected-keyword rule is modelled. -/
def kwargsAccepted (params kwargs : List String) : Bool :=
  kwargs.all (fun k => params.contains k)

/-- Constructor calls of `test_suite` in run_tests (app/main.py), as pairs
of (parameter names of the class `__init__`, keyword arguments passed). -/
def successSuiteCalls : List (List String × List String) :=
  [ (["expected_name", "expected_email", "expected_phone"],
     ["expected_name", "expected_email", "expected_phone"]),   -- UserCreateTest
    (["expected_email"], ["expected_email"]),                  -- UserReadTest
    (["new_name"], ["new_name"]),                              -- UserUpdateTest
    (["min_expected"], ["min_expected"]),                      -- UserListTest
    (["expected_title", "expected_status", "expected_idm_key"],
     ["expected_title", "expected_status", "expected_idm_key"]), -- TaskCreateTest
    (["expected_title"], ["expected_title"]),                  -- TaskReadTest
    (["new_status"], ["new_status"]),                          -- TaskUpdateTest
    (["min_expected"], ["min_expected"]),                      -- TaskListTest
    (["expected_summary"], []),                                -- TaskSummaryTest
    ([], []),                                                  -- TaskDeleteTest
    ([], []) ]                                                 -- UserDeleteTest

/-- Constructor calls of `error_test_suite` in run_tests (app/main.py): each
expect-error variant passes `expect_error` and `expected_error_msg`, keywords
that no `__init__` in app/tests.py declares. -/
def errorSuiteCalls : List (List String × List String) :=
  [ (["expected_email"],
     ["expected_email", "expect_error", "expected_error_msg"]),  -- UserReadTest
    (["new_name"],
     ["new_name", "expect_error", "expected_error_msg"]),        -- UserUpdateTest
    ([], ["expect_error", "expected_error_msg"]),                -- UserDeleteTest
    (["expected_title"],
     ["expected_title", "expect_error", "expected_error_msg"]),  -- TaskReadTest
    (["new_status"],
     ["new_status", "expect_error", "expected_error_msg"]),      -- TaskUpdateTest
    ([], ["expect_error", "expected_error_msg"]),                -- TaskDeleteTest
    (["expected_name", "expected_email", "expected_phone"],
     ["expected_name", "expected_email", "expected_phone"]),     -- UserCreateTest
    (["expected_name", "expected_email", "expected_phone"],
     ["expected_name", "expected_email", "expected_phone",
      "expect_error", "expected_error_msg"]),                    -- UserCreateTest
    ([], []),                                                    -- UserDeleteTest
    (["expected_title", "expected_status", "expected_idm_key"],
     ["expected_title", "expected_status",
      "expect_error", "expected_error_msg"]) ]                   -- TaskCreateTest

/-- Response of GET /test.  `report` carries the per-check outcomes of a
completed run; `raised` is an exception escaping the endpoint (FastAPI turns
it into a 500 response, not a report). -/
inductive TestEndpointResult where
  | report (results : List (String × CheckStatus))
  | raised (exc : String)
deriving DecidableEq

/-- GET /test (app/main.py, run_tests), at the level of name resolution and
suite construction: importing app.main resolves the names imported from
app.tests (ImportError stops everything if one is missing); run_tests then
constructs `test_suite`, runs it, and constructs `error_test_suite`, whose
first unexpected keyword argument raises TypeError out of the endpoint.
The run of a successfully constructed suite is not modelled here: control
never reaches the `report` branch (see the theorems below). -/
def get_test : TestEndpointResult :=
  if mainTestImports.all (fun n => testsModuleClasses.contains n) then
    if successSuiteCalls.all (fun c => kwargsAccepted c.1 c.2) then
      if errorSuiteCalls.all (fun c => kwargsAccepted c.1 c.2) then
        .report []
      else .raised "TypeError: unexpected keyword argument"
    else .raised "TypeError: unexpected keyword argument"
  else .raised "ImportError: cannot import name TaskFilterByUserTest"

/-! ### List helper lemmas -/

/-- A successful `find?` splits the list into an unmatched prefix, the found
element, and the rest. -/
theorem find?_split {α : Type} {p : α → Bool} {l : List α} {x : α}
    (h : l.find? p = some x) :
    ∃ l1 l2, l = l1 ++ x :: l2 ∧ ∀ y ∈ l1, p y = false := by
  induction l with
  | nil => simp [List.find?] at h
  | cons a l ih =>
    by_cases ha : p a = true
    · refine ⟨[], l, ?_, by simp⟩
      simp [List.find?_cons_of_pos _ ha] at h
      simp [h]
    · rw [List.find?_cons_of_neg _ ha] at h
      obtain ⟨l1, l2, rfl, hl1⟩ := ih h
      exact ⟨a :: l1, l2, rfl, by
        intro y hy
        rcases List.mem_cons.mp hy with rfl | hy
        · exact Bool.eq_false_iff.mpr ha
        · exact hl1 y hy⟩

/-- `setFirst` on a list whose prefix has no match replaces exactly the
first matching element. -/
theorem setFirst_split {α : Type} {p : α → Bool} {l1 l2 : List α} {x : α}
    (v : α) (h1 : ∀ y ∈ l1, p y = false) (hx : p x = true) :
    setFirst p v (l1 ++ x :: l2) = l1 ++ v :: l2 := by
  induction l1 with
  | nil => simp [setFirst, hx]
  | cons a l1 ih =>
    have ha : p a = false := h1 a (by simp)
    simp [setFirst, ha]
    exact ih (fun y hy => h1 y (by simp [hy]))

/-- `eraseP` on a list whose prefix has no match removes exactly the first
matching element. -/
theorem eraseP_split {α : Type} {p : α → Bool} {l1 l2 : List α} {x : α}
    (h1 : ∀ y ∈ l1, p y = false) (hx : p x = true) :
    (l1 ++ x :: l2).eraseP p = l1 ++ l2 := by
  induction l1 with
  | nil => simp [List.eraseP_cons, hx]
  | cons a l1 ih =>
    have ha : p a = false := h1 a (by simp)
    simp [List.eraseP_cons, ha]
    exact ih (fun y hy => h1 y (by simp [hy]))

/-- Appending a single fresh element preserves `Nodup`. -/
theorem nodup_snoc {α : Type} [DecidableEq α] {l : List α} {a : α}
    (hl : l.Nodup) (ha : a ∉ l) : (l ++ [a]).Nodup := by
  rw [List.nodup_append]
  exact ⟨hl, List.nodup_singleton a, by
    intro x hx hmem
    rcases List.mem_singleton.mp hmem with rfl
    exact ha hx⟩

/-! ### Concrete states used by witnesses and counterexamples -/

/-- A user row as the self-test suite would create it. -/
def demoUser : UserRow :=
  { id := 1, name := "Test User", email := "test@example.com",
    phone_number := none }

/-- A task row owned by `demoUser`, carrying the idempotency key used by the
self-test suite. -/
def demoTask : TaskRow :=
  { id := 10, title := "Test Task", user_id := 1, status := 0,
    due_date := none, idm_key := some "TEST-001" }

/-- A store holding one user who owns one task. -/
def demoStore : Store := { users := [demoUser], tasks := [demoTask] }

/-- A store holding one user and no tasks. -/
def userOnlyStore : Store := { users := [demoUser], tasks := [] }

/-! ### Claim theorems -/

/-- C1: the idempotent-create contract cannot hold: for every store and
every create-task request whose owner exists, `create_task` raises
`AttributeError` reading `task.idm_key` (the pydantic schema `TaskCreate`
declares no such field), returns no task, and leaves the store unchanged. -/
theorem create_task_raises_attribute_error (s : Store) (req : TaskCreate)
    (fid : Nat) (u : UserRow)
    (hu : s.users.find? (fun v => v.id == req.user_id) = some u) :
    create_task fid req s = (.error (.attributeError "idm_key"), s) := by
  unfold create_task
  rw [hu]
  rfl

/-- C1 witness: a task with idm_key "TEST-001" already exists and the owner
exists, yet creating "Test Task" raises AttributeError instead of returning
the existing task. -/
theorem create_task_raises_attribute_error_witness :
    create_task 5
        { title := "Test Task", status := 0, due_date := none, user_id := 1 }
        demoStore
      = (.error (.attributeError "idm_key"), demoStore) :=
  create_task_raises_attribute_error demoStore
    { title := "Test Task", status := 0, due_date := none, user_id := 1 }
    5 demoUser rfl

/-- C2: GET /test cannot return a 200 report with expect_error outcomes:
app/main.py imports TaskFilterByUserTest, which app/tests.py does not
define, so the module fails at import; and each expect_error construction in
run_tests passes the keywords expect_error / expected_error_msg, which no
test-class constructor accepts, so suite construction would raise TypeError
in any case.  Exactly the seven expect_error constructions are rejected. -/
theorem get_test_raises :
    "TaskFilterByUserTest" ∈ mainTestImports ∧
    "TaskFilterByUserTest" ∉ testsModuleClasses ∧
    errorSuiteCalls.map (fun c => kwargsAccepted c.1 c.2)
      = [false, false, false, false, false, false, true, false, true, false] ∧
    get_test = .raised "ImportError: cannot import name TaskFilterByUserTest" :=
  ⟨by decide, by decide, by decide, rfl⟩

/-- C3: for every store, the status summary has exactly the keys 0, 1, 2 in
that order, and each key maps to the number of tasks having that status;
all three keys are present even when counts are zero. -/
theorem task_summary_keys_exact (s : Store) :
    (task_summary_by_status s).map Prod.fst = [0, 1, 2] ∧
    ∀ st : Int, ∀ c : Nat,
      ((st, c) ∈ task_summary_by_status s ↔
        (st = 0 ∨ st = 1 ∨ st = 2) ∧
          c = s.tasks.countP (fun t => t.status == st)) := by
  constructor
  · simp [task_summary_by_status]
  · intro st c
    simp only [task_summary_by_status, List.map_cons, List.map_nil,
      List.mem_cons, List.not_mem_nil, or_false, Prod.mk.injEq,
      List.countP_eq_length_filter]
    constructor
    · rintro (⟨rfl, rfl⟩ | ⟨rfl, rfl⟩ | ⟨rfl, rfl⟩) <;> simp
    · rintro ⟨rfl | rfl | rfl, rfl⟩ <;> simp

/-- C5: creating a task whose user_id references no existing user fails
with HTTP 404 "User not found" and leaves the store (in particular the
tasks table) unchanged. -/
theorem create_task_missing_user (s : Store) (req : TaskCreate) (fid : Nat)
    (h : ∀ u ∈ s.users, u.id ≠ req.user_id) :
    create_task fid req s = (.error (.http 404 "User not found"), s) := by
  have hn : s.users.find? (fun u => u.id == req.user_id) = none := by
    rw [List.find?_eq_none]
    intro u hu
    simpa using h u hu
  unfold create_task
  rw [hn]

/-- C5 witness: no user has id 99, so creating a task for user 99 yields
404 and no task row. -/
theorem create_task_missing_user_witness :
    create_task 5 { title := "T", status := 0, due_date := none, user_id := 99 }
        userOnlyStore
      = (.error (.http 404 "User not found"), userOnlyStore) :=
  create_task_missing_user userOnlyStore
    { title := "T", status := 0, due_date := none, user_id := 99 } 5
    (by decide)

/-- C9: statuses outside 0..2 are accepted and then invisible to the
summary: updating the demo task's status to 5 succeeds (TaskUpdate imposes
no range check), and in the resulting store the three summary counts add up
to strictly less than the number of tasks. -/
theorem status_unvalidated_summary_undercount :
    (update_task 10 { status := some 5 } demoStore).1
        = .ok { demoTask with status := 5 } ∧
    ((task_summary_by_status (update_task 10 { status := some 5 } demoStore).2).map
        Prod.snd).sum
      < (update_task 10 { status := some 5 } demoStore).2.tasks.length :=
  ⟨rfl, by decide⟩

/-- A user row whose phone number is taken. -/
def phoneUser : UserRow :=
  { id := 1, name := "A", email := "a@x", phone_number := some "555" }

/-- A valid store holding one user with phone number "555". -/
def phoneStore : Store := { users := [phoneUser], tasks := [] }

/-- A create-user request with a fresh email but the already-used phone. -/
def phoneReq : UserCreate :=
  { name := "B", email := "b@x", phone_number := some "555" }

/-- C4 counterexample: a store state where the requested email is not
present but create_user still fails — the UNIQUE constraint on phone_number
(app/models/classes.py) rejects the insert at commit, so the claim that an
unused email suffices for success is false; no row is created. -/
theorem create_user_phone_collision :
    storeOk phoneStore = true ∧
    (∀ u ∈ phoneStore.users, u.email ≠ phoneReq.email) ∧
    create_user 2 phoneReq phoneStore = (.error .integrityError, phoneStore) :=
  ⟨by decide, by decide, rfl⟩

/-- C4 (amended): creating a user with an already-used email fails with
HTTP 400 and changes nothing; creating a user whose email is unused
succeeds and appends exactly the new row, provided the generated id is
fresh and the requested phone number (when present) is not already used —
otherwise the phone uniqueness constraint fails the commit. -/
theorem create_user_spec (s : Store) (req : UserCreate) (fid : Nat) :
    ((∃ u ∈ s.users, u.email = req.email) →
      create_user fid req s
        = (.error (.http 400 "Email already registered"), s)) ∧
    (storeOk s = true →
     (∀ u ∈ s.users, u.email ≠ req.email) →
     (∀ u ∈ s.users, u.id ≠ fid) →
     (∀ u ∈ s.users, req.phone_number = none ∨
        u.phone_number ≠ req.phone_number) →
      create_user fid req s
        = (.ok (mkUser fid req),
           { s with users := s.users ++ [mkUser fid req] })) := by
  constructor
  · rintro ⟨u, hu, he⟩
    cases hf : s.users.find? (fun v => v.email == req.email) with
    | none =>
      have := List.find?_eq_none.mp hf u hu
      simp [he] at this
    | some u0 =>
      unfold create_user
      rw [hf]
  · intro hok hemail hid hphone
    have hf : s.users.find? (fun v => v.email == req.email) = none := by
      rw [List.find?_eq_none]
      intro u hu
      simpa using hemail u hu
    have hok1 : storeOk { s with users := s.users ++ [mkUser fid req] } = true := by
      unfold storeOk usersOk tasksOk at hok ⊢
      simp only [Bool.and_eq_true, decide_eq_true_eq] at hok ⊢
      obtain ⟨⟨⟨hids, hemails⟩, hphones⟩, ⟨htids, htkeys⟩, href⟩ := hok
      refine ⟨⟨⟨?_, ?_⟩, ?_⟩, ⟨htids, htkeys⟩, ?_⟩
      · rw [List.map_append]
        simp only [List.map_cons, List.map_nil]
        refine nodup_snoc hids ?_
        intro hmem
        obtain ⟨u, hu, he⟩ := List.mem_map.mp hmem
        exact hid u hu (by simpa [mkUser] using he)
      · rw [List.map_append]
        simp only [List.map_cons, List.map_nil]
        refine nodup_snoc hemails ?_
        intro hmem
        obtain ⟨u, hu, he⟩ := List.mem_map.mp hmem
        exact hemail u hu (by simpa [mkUser] using he)
      · rw [List.filterMap_append]
        cases hp : req.phone_number with
        | none => simpa [mkUser, hp] using hphones
        | some p =>
          simp only [mkUser, hp, List.filterMap_cons, List.filterMap_nil]
          refine nodup_snoc hphones ?_
          intro hmem
          obtain ⟨u, hu, he⟩ := List.mem_filterMap.mp hmem
          rcases hphone u hu with h0 | h0
          · rw [h0] at hp; cases hp
          · exact h0 (by rw [he, hp])
      · rw [List.all_eq_true] at href ⊢
        intro t ht
        have h1 := href t ht
        rw [List.any_append]
        simp only [h1, Bool.true_or]
    unfold create_user
    rw [hf]
    dsimp only
    rw [if_pos hok1]

/-- C4 witness: on a one-user store, the taken email yields HTTP 400 and an
unchanged store, and a fresh email (phone absent) yields the inserted row. -/
theorem create_user_spec_witness :
    (create_user 2
        { name := "B", email := "test@example.com", phone_number := none }
        userOnlyStore
      = (.error (.http 400 "Email already registered"), userOnlyStore)) ∧
    (create_user 2 { name := "B", email := "b@x", phone_number := none }
        userOnlyStore
      = (.ok (mkUser 2 { name := "B", email := "b@x", phone_number := none }),
         { userOnlyStore with
            users := userOnlyStore.users
              ++ [mkUser 2 { name := "B", email := "b@x", phone_number := none }] })) :=
  ⟨(create_user_spec userOnlyStore
      { name := "B", email := "test@example.com", phone_number := none } 2).1
      ⟨demoUser, by decide, rfl⟩,
   (create_user_spec userOnlyStore
      { name := "B", email := "b@x", phone_number := none } 2).2
      (by decide) (by decide) (by decide) (by decide)⟩

/-- C6: a partial update supplying only `status` either 404s on a missing
id (store unchanged), or rewrites exactly the row with that id: its status
becomes the new value, its other fields are kept, and every other row of
both tables is kept in place. -/
theorem update_task_status_frame (s : Store) (tid : Nat) (v : Int)
    (hok : storeOk s = true) :
    (s.tasks.find? (fun t => t.id == tid) = none →
      update_task tid { status := some v } s
        = (.error (.http 404 "Task not found"), s)) ∧
    (∀ t0, s.tasks.find? (fun t => t.id == tid) = some t0 →
      ∃ l1 l2,
        s.tasks = l1 ++ t0 :: l2 ∧
        (∀ x ∈ l1, x.id ≠ tid) ∧ (∀ x ∈ l2, x.id ≠ tid) ∧
        update_task tid { status := some v } s
          = (.ok { t0 with status := v },
             { s with tasks := l1 ++ { t0 with status := v } :: l2 })) := by
  constructor
  · intro hn
    unfold update_task
    rw [hn]
  · intro t0 hf
    obtain ⟨l1, l2, hsplit, hl1⟩ := find?_split hf
    have ht0e : t0.id = tid := by simpa using List.find?_some hf
    have hids : (s.tasks.map (fun t => t.id)).Nodup := by
      unfold storeOk usersOk tasksOk at hok
      simp only [Bool.and_eq_true, decide_eq_true_eq] at hok
      exact hok.2.1.1
    have hl2 : ∀ x ∈ l2, x.id ≠ tid := by
      rw [hsplit, List.map_append, List.map_cons, List.nodup_append] at hids
      have h2 := hids.2.1
      rw [List.nodup_cons] at h2
      intro x hx hxe
      exact h2.1 (List.mem_map.mpr ⟨x, hx, hxe.trans ht0e.symm⟩)
    have hl1e : ∀ x ∈ l1, x.id ≠ tid := by
      intro x hx
      simpa using hl1 x hx
    refine ⟨l1, l2, hsplit, hl1e, hl2, ?_⟩
    unfold update_task
    rw [hf]
    dsimp only
    simp only [Option.getD_some, Option.getD_none]
    have hset : setFirst (fun x => x.id == tid) { t0 with status := v } s.tasks
        = l1 ++ { t0 with status := v } :: l2 := by
      rw [hsplit]
      exact setFirst_split _ hl1 (by simp [ht0e])
    rw [hset]
    have hok1 : storeOk { s with tasks := l1 ++ { t0 with status := v } :: l2 }
        = true := by
      unfold storeOk usersOk tasksOk at hok ⊢
      rw [hsplit] at hok
      have e1 : (l1 ++ { t0 with status := v } :: l2).map (fun t => t.id)
          = (l1 ++ t0 :: l2).map (fun t => t.id) := by simp
      have e2 : (l1 ++ { t0 with status := v } :: l2).filterMap (fun t => t.idm_key)
          = (l1 ++ t0 :: l2).filterMap (fun t => t.idm_key) := by
        simp only [List.filterMap_append]
        congr 1
      have e3 : (l1 ++ { t0 with status := v } :: l2).all
            (fun t => s.users.any (fun u => u.id == t.user_id))
          = (l1 ++ t0 :: l2).all
            (fun t => s.users.any (fun u => u.id == t.user_id)) := by
        simp [List.all_append]
      rw [e1, e2, e3]
      exact hok
    rw [if_pos hok1]

/-- C6 witness: on the demo store, updating task 10 to status 2 rewrites
only that row, and updating the absent id 3 yields 404 with the store
unchanged. -/
theorem update_task_status_frame_witness :
    (∃ l1 l2,
      demoStore.tasks = l1 ++ demoTask :: l2 ∧
      (∀ x ∈ l1, x.id ≠ 10) ∧ (∀ x ∈ l2, x.id ≠ 10) ∧
      update_task 10 { status := some 2 } demoStore
        = (.ok { demoTask with status := 2 },
           { demoStore with tasks := l1 ++ { demoTask with status := 2 } :: l2 })) ∧
    update_task 3 { status := some 2 } demoStore
      = (.error (.http 404 "Task not found"), demoStore) :=
  ⟨(update_task_status_frame demoStore 10 2 (by decide)).2 demoTask rfl,
   (update_task_status_frame demoStore 3 2 (by decide)).1 rfl⟩

/-- C8 counterexample: deleting a user who still owns a task does NOT
succeed: the NOT NULL foreign key on tasks.user_id (app/models/classes.py)
fails the commit, so the first delete on this valid store returns an
integrity error (HTTP 500), not 204, and removes nothing. -/
theorem delete_user_with_tasks_fails :
    storeOk demoStore = true ∧
    (∃ u ∈ demoStore.users, u.id = 1) ∧
    delete_user 1 demoStore = (.error .integrityError, demoStore) :=
  ⟨by decide, ⟨demoUser, by decide, rfl⟩, rfl⟩

/-- C8 (amended): on a valid store containing the user, when no task
references that user the first delete succeeds and removes exactly that
row, and the second delete of the same id fails with HTTP 404 leaving the
store unchanged. -/
theorem delete_user_twice (s : Store) (uid : Nat) (u : UserRow)
    (hok : storeOk s = true)
    (hu : s.users.find? (fun v => v.id == uid) = some u)
    (hnt : ∀ t ∈ s.tasks, t.user_id ≠ uid) :
    ∃ l1 l2,
      s.users = l1 ++ u :: l2 ∧
      (∀ w ∈ l1 ++ l2, w.id ≠ uid) ∧
      delete_user uid s = (.ok (), { s with users := l1 ++ l2 }) ∧
      delete_user uid { s with users := l1 ++ l2 }
        = (.error (.http 404 "User not found"), { s with users := l1 ++ l2 }) := by
  obtain ⟨l1, l2, hsplit, hl1⟩ := find?_split hu
  have hue : u.id = uid := by simpa using List.find?_some hu
  unfold storeOk usersOk tasksOk at hok
  simp only [Bool.and_eq_true, decide_eq_true_eq] at hok
  obtain ⟨⟨⟨hids, hemails⟩, hphones⟩, ⟨htids, htkeys⟩, href⟩ := hok
  have hl2 : ∀ w ∈ l2, w.id ≠ uid := by
    have h := hids
    rw [hsplit, List.map_append, List.map_cons, List.nodup_append] at h
    have h2 := h.2.1
    rw [List.nodup_cons] at h2
    intro w hw hwe
    exact h2.1 (List.mem_map.mpr ⟨w, hw, hwe.trans hue.symm⟩)
  have hall : ∀ w ∈ l1 ++ l2, w.id ≠ uid := by
    intro w hw
    rcases List.mem_append.mp hw with h | h
    · have h1 := hl1 w h
      intro he
      rw [he] at h1
      simp at h1
    · exact hl2 w h
  have herase : s.users.eraseP (fun v => v.id == uid) = l1 ++ l2 := by
    rw [hsplit]
    exact eraseP_split hl1 (by simp [hue])
  have hsub : List.Sublist (l1 ++ l2) s.users := by
    rw [hsplit]
    exact List.Sublist.append_left (List.sublist_cons_self u l2) l1
  have hok1 : storeOk { s with users := l1 ++ l2 } = true := by
    unfold storeOk usersOk tasksOk
    simp only [Bool.and_eq_true, decide_eq_true_eq]
    refine ⟨⟨⟨?_, ?_⟩, ?_⟩, ⟨htids, htkeys⟩, ?_⟩
    · exact List.Nodup.sublist (List.Sublist.map _ hsub) hids
    · exact List.Nodup.sublist (List.Sublist.map _ hsub) hemails
    · exact List.Nodup.sublist (List.Sublist.filterMap _ hsub) hphones
    · rw [List.all_eq_true] at href ⊢
      intro t ht
      have h1 := href t ht
      have hne : (u.id == t.user_id) = false := by
        refine beq_eq_false_iff_ne.mpr ?_
        rw [hue]
        exact fun he => hnt t ht he.symm
      rw [hsplit, List.any_append, List.any_cons, hne] at h1
      rw [List.any_append]
      simpa using h1
  refine ⟨l1, l2, hsplit, hall, ?_, ?_⟩
  · unfold delete_user
    rw [hu]
    dsimp only
    rw [herase, if_pos hok1]
  · have hf2 : (l1 ++ l2).find? (fun v => v.id == uid) = none := by
      rw [List.find?_eq_none]
      intro w hw
      simpa using hall w hw
    unfold delete_user
    dsimp only
    rw [hf2]

/-- C8 witness: on a store with one task-free user, deleting id 1 removes
the row and the second delete returns 404 with the store unchanged. -/
theorem delete_user_twice_witness :
    ∃ l1 l2,
      userOnlyStore.users = l1 ++ demoUser :: l2 ∧
      (∀ w ∈ l1 ++ l2, w.id ≠ 1) ∧
      delete_user 1 userOnlyStore
        = (.ok (), { userOnlyStore with users := l1 ++ l2 }) ∧
      delete_user 1 { userOnlyStore with users := l1 ++ l2 }
        = (.error (.http 404 "User not found"),
           { userOnlyStore with users := l1 ++ l2 }) :=
  delete_user_twice userOnlyStore 1 demoUser (by decide) rfl (by decide)

/-- Running a concatenated suite runs the first part, then the second part
from the state the first part left behind, and concatenates the reports. -/
theorem runAllChecks_append {σ ρ : Type} (l1 l2 : List (Check σ ρ)) (s : σ) :
    runAllChecks (l1 ++ l2) s
      = ((runAllChecks l1 s).1 ++ (runAllChecks l2 (runAllChecks l1 s).2).1,
         (runAllChecks l2 (runAllChecks l1 s).2).2) := by
  induction l1 generalizing s with
  | nil => simp [runAllChecks]
  | cons c cs ih =>
    rw [List.cons_append]
    show runAllChecks (c :: (cs ++ l2)) s = _
    simp only [runAllChecks]
    rw [ih (runCheck c s).2]
    rfl

/-- C7: one raising check never prevents later checks from running.  For
every suite split as pre ++ [c] ++ post and every starting state: if c's
execute step raises with message m at the state pre leaves behind, the full
report is pre's report, then c recorded as ERROR with m, then the full
report of post (which still runs, from the post-raise state); if c's
execute step returns normally, c is recorded PASS exactly when its
validation holds, and post still runs. -/
theorem harness_isolation {σ ρ : Type} (pre post : List (Check σ ρ))
    (c : Check σ ρ) (s s1 : σ) :
    (∀ m : String, c.execute (runAllChecks pre s).2 = (s1, .error m) →
      (runAllChecks (pre ++ c :: post) s).1
        = (runAllChecks pre s).1
            ++ ((c.name, CheckStatus.errored m) :: (runAllChecks post s1).1)) ∧
    (∀ r : ρ, c.execute (runAllChecks pre s).2 = (s1, .ok r) →
      (runAllChecks (pre ++ c :: post) s).1
        = (runAllChecks pre s).1
            ++ ((c.name,
                 if c.validate s1 r then CheckStatus.pass else CheckStatus.fail)
                :: (runAllChecks post s1).1)) := by
  constructor
  · intro m hm
    rw [runAllChecks_append]
    simp only [runAllChecks, runCheck, hm]
  · intro r hr
    rw [runAllChecks_append]
    simp only [runAllChecks, runCheck, hr]

/-- A check whose execute step increments the shared counter and succeeds. -/
def checkOkDemo : Check Nat Unit :=
  { name := "ok", execute := fun s => (s + 1, .ok ()),
    validate := fun _ _ => true }

/-- A check whose execute step raises with message "boom". -/
def checkRaisesDemo : Check Nat Unit :=
  { name := "boom", execute := fun s => (s, .error "boom"),
    validate := fun _ _ => true }

/-- C7 witness: a raising check followed by a normal check produces an
ERROR record and the later check still runs; a normal check alone records
its PASS/FAIL according to validation. -/
theorem harness_isolation_witness :
    ((runAllChecks ([] ++ checkRaisesDemo :: [checkOkDemo]) 0).1
      = (runAllChecks ([] : List (Check Nat Unit)) 0).1
          ++ (("boom", CheckStatus.errored "boom")
              :: (runAllChecks [checkOkDemo] 0).1)) ∧
    ((runAllChecks ([] ++ checkOkDemo :: []) 0).1
      = (runAllChecks ([] : List (Check Nat Unit)) 0).1
          ++ (("ok",
               if checkOkDemo.validate 1 () then CheckStatus.pass
               else CheckStatus.fail)
              :: (runAllChecks ([] : List (Check Nat Unit)) 1).1)) :=
  ⟨(harness_isolation [] [checkOkDemo] checkRaisesDemo 0 0).1 "boom" rfl,
   (harness_isolation [] [] checkOkDemo 0 1).2 () rfl⟩

/-- C10: delete_user never touches the tasks table: for every store and
user id, succeed or fail, the task rows after the call are exactly the task
rows before (no cascade delete of the owned tasks). -/
theorem delete_user_preserves_tasks (s : Store) (uid : Nat) :
    (delete_user uid s).2.tasks = s.tasks := by
  unfold delete_user
  cases h : s.users.find? (fun u => u.id == uid) with
  | none => rfl
  | some u =>
    dsimp only
    split <;> rfl

end Eventual
